import Mathlib

/-!
Verification of the permission and throttle subsystem of lightshowpi
(py/configuration_manager.py), shallowly embedded in Lean.

The embedding follows the source file:
* the "sms" permission-table construction (source lines 156-228),
* "has_permission" (lines 332-347),
* "is_throttle_exceeded" (lines 350-461),
* the state-file lock discipline of "load_state" and "update_state"
  (lines 274-279 and 307-329).

Python dictionaries are modelled as insertion-ordered association lists
with replace-on-existing-key update, Python sets as duplicate-free lists,
datetime values as microseconds since the epoch, and raised exceptions as
Option.none results.
-/

/-! ## Python value primitives -/

/-- Values the throttle check can return: the source returns either a bool
or the sentinel integer -1 (the initial value of process_command_flag). -/
inductive PyVal where
  | pyBool (b : Bool)
  | pyInt (n : Int)
deriving DecidableEq

/-- Python truthiness of the returned value: a nonzero integer is truthy. -/
def PyVal.truthy : PyVal → Bool
  | PyVal.pyBool b => b
  | PyVal.pyInt n => decide (n ≠ 0)

/-- Whitespace accepted by Python int() around the digits. -/
def isPySpace (c : Char) : Bool :=
  c == ' ' || c == '\t' || c == '\n' || c == '\r'

/-- Strip leading and trailing whitespace from a character list. -/
def trimChars (l : List Char) : List Char :=
  ((l.dropWhile isPySpace).reverse.dropWhile isPySpace).reverse

/-- Decimal digit test on the character code. -/
def isDigitChar (c : Char) : Bool :=
  decide (48 ≤ c.toNat) && decide (c.toNat ≤ 57)

/-- Value of a (checked) list of decimal digits. -/
def digitsToNat (l : List Char) : Nat :=
  l.foldl (fun acc c => acc * 10 + (c.toNat - 48)) 0

/-- Models Python int(str): optional surrounding whitespace, an optional
sign, then one or more decimal digits; any other input raises ValueError,
modelled as none. -/
def pyIntParse (s : String) : Option Int :=
  match trimChars s.data with
  | [] => none
  | c :: rest =>
    if c == '-' then
      if !rest.isEmpty && rest.all isDigitChar then some (-(digitsToNat rest : Int)) else none
    else if c == '+' then
      if !rest.isEmpty && rest.all isDigitChar then some ((digitsToNat rest : Int)) else none
    else
      if (c :: rest).all isDigitChar then some ((digitsToNat (c :: rest) : Int)) else none

/-- Split a character list on every occurrence of a separator, keeping
empty fields, as Python str.split(sep) does. -/
def splitCharsOn (sep : Char) : List Char → List (List Char)
  | [] => [[]]
  | c :: rest =>
    match splitCharsOn sep rest with
    | [] => [[c]]
    | h :: t => if c == sep then [] :: h :: t else (c :: h) :: t

/-- Models Python token.split(":") from source line 207. -/
def pySplitColon (s : String) : List String :=
  (splitCharsOn ':' s.data).map (fun l => String.mk l)

/-! ## Timestamps

datetime values are modelled as microseconds since the epoch. -/

abbrev DateTime := Nat

/-- The shape of Python str(datetime): the ".ffffff" fractional part is
omitted exactly when the microsecond component is zero. Modelled
structurally as whole seconds plus an optional microsecond field. -/
inductive TsRepr where
  | withFrac (sec : Nat) (usec : Nat)
  | noFrac (sec : Nat)
deriving DecidableEq

/-- Models str(current_timestamp) as written at source line 382. -/
def pyStrDT (t : DateTime) : TsRepr :=
  if t % 1000000 == 0 then TsRepr.noFrac (t / 1000000)
  else TsRepr.withFrac (t / 1000000) (t % 1000000)

/-- Models datetime.strptime(s, "%Y-%m-%d %H:%M:%S.%f") from source lines
370-371: the fractional-seconds part is required by the %f directive, so a
representation without it raises ValueError, modelled as none. -/
def strptimeFrac : TsRepr → Option DateTime
  | TsRepr.withFrac s u => some (s * 1000000 + u)
  | TsRepr.noFrac _ => none

/-! ## Python dictionaries as association lists -/

/-- Dictionary lookup; none models a KeyError on subscript access. -/
def dictGet {α : Type} : List (String × α) → String → Option α
  | [], _ => none
  | (k, v) :: rest, key => if key = k then some v else dictGet rest key

/-- Dictionary assignment: replace the value of an existing key in place,
otherwise append the new pair (insertion order). -/
def dictSet {α : Type} : List (String × α) → String → α → List (String × α)
  | [], key, v => [(key, v)]
  | (k, w) :: rest, key, v =>
    if key = k then (key, v) :: rest else (k, w) :: dictSet rest key v

/-! ## Configuration structures -/

/-- One group from the sms configuration: its member users (group_users),
granted commands (group_commands) and raw throttle token list
(group_throttle; none models a missing key, raising KeyError at source
line 202). -/
structure GroupCfg where
  name : String
  users : List String
  commands : List String
  throttle : Option (List String)
deriving DecidableEq

/-- The sms configuration keys consumed by the permission-table build:
the command list, the group definitions in declaration order, and the
blacklist. -/
structure SmsConfig where
  commands : List String
  groups : List GroupCfg
  blacklist : List String
deriving DecidableEq

/-- The parts of the built _SMS_CONFIG consumed by is_throttle_exceeded:
the ordered group definitions, the parsed throttled_groups dictionary and
int(throttle_time_limit_seconds). -/
structure SmsRuntime where
  groups : List GroupCfg
  throttledGroups : List (String × List (String × Int))
  timeLimit : Nat
deriving DecidableEq

/-- The persisted throttle dictionary: the optional
throttle_timestamp_start entry (stored in its str(datetime) form) and the
per-group counter dictionaries. -/
structure ThrottleState where
  start : Option TsRepr
  counters : List (String × List (String × Int))
deriving DecidableEq

/-! ## Permission-table construction (source lines 156-228) -/

/-- Parse the throttle token list of one group (source lines 206-219).
A token that does not split on ":" into exactly two parts is skipped with
a warning; int() of a non-integer limit raises ValueError, which the
source does not catch (only KeyError is), modelled as none. -/
def parseThrottleDefs (acc : List (String × Int)) : List String → Option (List (String × Int))
  | [] => some acc
  | tok :: rest =>
    match pySplitColon tok with
    | [c, l] =>
      match pyIntParse l with
      | some n => parseThrottleDefs (dictSet acc c n) rest
      | none => none
    | _ => parseThrottleDefs acc rest

/-- Build _SMS_CONFIG["throttled_groups"] (source lines 200-223): a group
without a throttle key is skipped (KeyError caught, warning); a ValueError
from a non-integer limit propagates and aborts the construction. -/
def buildThrottledGroups (acc : List (String × List (String × Int))) :
    List GroupCfg → Option (List (String × List (String × Int)))
  | [] => some acc
  | g :: rest =>
    match g.throttle with
    | none => buildThrottledGroups acc rest
    | some toks =>
      match parseThrottleDefs [] toks with
      | none => none
      | some d => buildThrottledGroups (dictSet acc g.name d) rest

abbrev WhoCanDict := List (String × List String)

/-- Python set.add on the duplicate-free list model. -/
def setAdd (s : List String) (u : String) : List String :=
  if u ∈ s then s else s ++ [u]

/-- The _WHO_CAN dictionary after initialisation (source lines 166 and
177): an empty set under "all" and under every configured command. -/
def initWhoCan (cfg : SmsConfig) : WhoCanDict :=
  cfg.commands.foldl (fun acc c => dictSet acc c []) (dictSet [] "all" [])

/-- _WHO_CAN[cmd].add(user) (source line 198); a command granted by a
group but absent from the dictionary raises KeyError, modelled as none. -/
def addUser (w : WhoCanDict) (c u : String) : Option WhoCanDict :=
  match dictGet w c with
  | none => none
  | some s => some (dictSet w c (setAdd s u))

/-- The grant loop of one group (source lines 196-198). -/
def addGroupGrants (w : WhoCanDict) (g : GroupCfg) : Option WhoCanDict :=
  g.commands.foldlM (fun acc c => g.users.foldlM (fun acc2 u => addUser acc2 c u) acc) w

/-- The complete _WHO_CAN construction performed by sms(). -/
def buildWhoCan (cfg : SmsConfig) : Option WhoCanDict :=
  cfg.groups.foldlM addGroupGrants (initWhoCan cfg)

/-! ## has_permission (source lines 332-347) -/

/-- has_permission(user, cmd). Evaluation order and short-circuiting
follow the source expression at lines 345-347: the blacklist test first
(short-circuiting the whole conjunction), then user in _WHO_CAN["all"],
then "all" in _WHO_CAN[cmd], then user in _WHO_CAN[cmd]. A KeyError from
a missing dictionary key is modelled as none. -/
def hasPermission (w : WhoCanDict) (blacklist : List String) (user cmd : String) : Option Bool :=
  if user ∈ blacklist then some false
  else
    match dictGet w "all" with
    | none => none
    | some allSet =>
      if user ∈ allSet then some true
      else
        match dictGet w cmd with
        | none => none
        | some cmdSet => some (decide ("all" ∈ cmdSet) || decide (user ∈ cmdSet))

/-! ## is_throttle_exceeded (source lines 350-461)

The function is split along the linear structure of the source:
timing analysis and window reset (lines 362-383), group selection
(lines 389-414), then limit evaluation (lines 416-461). The persisted
state is threaded explicitly; every update_state("throttle", ...) call is
recorded in a write list, in order. -/

/-- The parsed window start (source lines 370-372): strptime of the
stored value when the throttle_timestamp_start key exists, else the
current timestamp. none models the ValueError raised by strptime. -/
def startOf (now : DateTime) (stored : ThrottleState) : Option DateTime :=
  match stored.start with
  | none => some now
  | some r => strptimeFrac r

/-- The fresh window built by the reset branch (source lines 381-382):
only the throttle_timestamp_start key, set to str(now). -/
def freshWindow (now : DateTime) : ThrottleState :=
  ⟨some (pyStrDT now), []⟩

/-- throttle_state[throttled_group] with an empty dictionary as default
(source lines 422-425). -/
def gStateOf (tstate : ThrottleState) (gname : String) : List (String × Int) :=
  (dictGet tstate.counters gname).getD []

/-- A counter read with default 0 (source lines 427-430 and 434-435). -/
def countOf (gState : List (String × Int)) (k : String) : Int :=
  (dictGet gState k).getD 0

/-- The per-command limit block and the final persist (source lines
449-461). gCmdCount is the command counter as read at lines 427-430,
before any mutation by the "all" block. Both branches end at line 459:
update_state is called with the current throttle_state. -/
def cmdPhase (cmdL gCmdCount : Int) (gname cmd : String) (gState : List (String × Int))
    (tstate : ThrottleState) (writes : List ThrottleState) (flag : PyVal) :
    PyVal × List ThrottleState :=
  if cmdL ≠ -1 ∧ gCmdCount < cmdL then
    let gState2 := dictSet gState cmd (gCmdCount + 1)
    let tstate2 : ThrottleState := ⟨tstate.start, dictSet tstate.counters gname gState2⟩
    (PyVal.pyBool false, writes ++ [tstate2])
  else (flag, writes ++ [tstate])

/-- The limit evaluation on the selected group (source lines 416-461):
the "all" block first (lines 432-447; reaching the "all" limit returns
True immediately, before the final update_state), then the per-command
block and the final persist. -/
def limitPhase (allL cmdL : Int) (gname cmd : String) (tstate : ThrottleState)
    (writes : List ThrottleState) : PyVal × List ThrottleState :=
  let gState := gStateOf tstate gname
  let gCmdCount := countOf gState cmd
  if allL ≠ -1 then
    let allCount := countOf gState "all"
    if allCount < allL then
      let gState1 := dictSet gState "all" (allCount + 1)
      let tstate1 : ThrottleState := ⟨tstate.start, dictSet tstate.counters gname gState1⟩
      cmdPhase cmdL gCmdCount gname cmd gState1 tstate1 writes (PyVal.pyBool false)
    else (PyVal.pyBool true, writes)
  else cmdPhase cmdL gCmdCount gname cmd gState tstate writes (PyVal.pyInt (-1))

/-- The group-selection loop (source lines 389-414). The two limit
variables are only reassigned when the corresponding key is present in
the throttle dictionary of the group, exactly as in the source; the loop
breaks at the first group for which either limit differs from -1. -/
def findGroup (user cmd : String) (tgs : List (String × List (String × Int))) :
    Int → Int → List GroupCfg → Int × Int × Option String
  | allL, cmdL, [] => (allL, cmdL, none)
  | allL, cmdL, g :: rest =>
    if user ∈ g.users then
      match dictGet tgs g.name with
      | some d =>
        let allL' := (dictGet d "all").getD allL
        let cmdL' := (dictGet d cmd).getD cmdL
        if allL' ≠ -1 ∨ cmdL' ≠ -1 then (allL', cmdL', some g.name)
        else findGroup user cmd tgs allL' cmdL' rest
      | none => findGroup user cmd tgs allL cmdL rest
    else findGroup user cmd tgs allL cmdL rest

/-- Everything after the reset test (source lines 385-461): group
selection, then either the early return False of line 419 (no throttled
group, nothing written), or the limit evaluation. -/
def throttleTail (sms : SmsRuntime) (cmd user : String) (tstate : ThrottleState)
    (writes : List ThrottleState) : PyVal × List ThrottleState :=
  match findGroup user cmd sms.throttledGroups (-1) (-1) sms.groups with
  | (_, _, none) => (PyVal.pyBool false, writes)
  | (allL, cmdL, some gname) => limitPhase allL cmdL gname cmd tstate writes

/-- is_throttle_exceeded(cmd, user), acting on an already-deserialized
stored window. Returns the Python return value together with the ordered
list of update_state("throttle", ...) writes; none models an uncaught
exception. The reset condition and the stop timestamp follow source
lines 373-383. -/
def isThrottleExceeded (sms : SmsRuntime) (now : DateTime) (stored : ThrottleState)
    (cmd user : String) : Option (PyVal × List ThrottleState) :=
  match startOf now stored with
  | none => none
  | some st =>
    if now = st ∨ st + sms.timeLimit * 1000000 < now then
      some (throttleTail sms cmd user (freshWindow now) [freshWindow now])
    else some (throttleTail sms cmd user stored [])

/-- The persisted throttle blob as found by get_state (source lines
362-364): either the option is absent (get_state returns the default,
the empty-dictionary literal) or a stored string whose ast.literal_eval
result is modelled directly; none models a literal_eval exception on an
unparsable blob. -/
inductive PersistedBlob where
  | absent
  | stored (v : Option ThrottleState)
deriving DecidableEq

/-- get_state("throttle", default) followed by ast.literal_eval (source
line 364). -/
def getStateThrottle : PersistedBlob → Option ThrottleState
  | PersistedBlob.absent => some ⟨none, []⟩
  | PersistedBlob.stored v => v

/-- The throttle check from the persisted blob onward. -/
def isThrottleExceededBlob (sms : SmsRuntime) (now : DateTime) (blob : PersistedBlob)
    (cmd user : String) : Option (PyVal × List ThrottleState) :=
  match getStateThrottle blob with
  | none => none
  | some st => isThrottleExceeded sms now st cmd user

/-! ## State-file lock discipline (source lines 274-279 and 307-329)

load_state and update_state are with-blocks around lockf/unlock pairs
with no try/finally; they are modelled as the sequence of file events
each executes, parameterized on whether the fallible operation in the
middle (STATE.readfp, STATE.write) raises. When it raises, control
leaves the with-block, which closes the handle; the explicit unlock call
is skipped. -/

inductive FileEv where
  | lockSh
  | lockEx
  | unlock
  | readCfg
  | writeCfg
  | closeFp
deriving DecidableEq

/-- Event sequence of load_state (source lines 274-279). -/
def loadStateTrace (readRaises : Bool) : List FileEv :=
  [FileEv.lockSh, FileEv.readCfg] ++
    (if readRaises then [] else [FileEv.unlock]) ++ [FileEv.closeFp]

/-- Event sequence of update_state (source lines 326-329). -/
def updateStateTrace (writeRaises : Bool) : List FileEv :=
  [FileEv.lockEx, FileEv.writeCfg] ++
    (if writeRaises then [] else [FileEv.unlock]) ++ [FileEv.closeFp]

/-- Whether an explicit unlock event occurs strictly before the handle
close in a trace. -/
def unlockBeforeClose (t : List FileEv) : Bool :=
  (t.takeWhile (fun e => !(e == FileEv.closeFp))).contains FileEv.unlock

/-! ## Statements taken from the claim wording (for comparison with the
source-derived definitions) -/

/-- Modelled from the claim wording of C4: the first group, in declared
order, of which the user is a member and whose throttle definition
contains a limit for "all" or for the command. -/
def specFirstMatch (user cmd : String) (tgs : List (String × List (String × Int))) :
    List GroupCfg → Option String
  | [] => none
  | g :: rest =>
    if user ∈ g.users &&
        (match dictGet tgs g.name with
         | some d => (dictGet d "all").isSome || (dictGet d cmd).isSome
         | none => false) then some g.name
    else specFirstMatch user cmd tgs rest

/-- The matching rule the source actually implements: the first group, in
declared order, of which the user is a member and whose throttle
definition contains a limit different from -1 for "all" or for the
command; the returned limits default to -1 when the key is absent. -/
def amendedFirstMatch (user cmd : String) (tgs : List (String × List (String × Int))) :
    List GroupCfg → Option (String × Int × Int)
  | [] => none
  | g :: rest =>
    if user ∈ g.users then
      match dictGet tgs g.name with
      | some d =>
        let aL := (dictGet d "all").getD (-1)
        let cL := (dictGet d cmd).getD (-1)
        if aL ≠ -1 ∨ cL ≠ -1 then some (g.name, aL, cL)
        else amendedFirstMatch user cmd tgs rest
      | none => amendedFirstMatch user cmd tgs rest
    else amendedFirstMatch user cmd tgs rest

/-- Condition under which the limit-evaluation phase reaches the final
update_state of source line 459: a throttled group was selected and the
"all" early return of line 447 was not taken. -/
def tailPersists (sms : SmsRuntime) (cmd user : String) (tstate : ThrottleState) : Bool :=
  match findGroup user cmd sms.throttledGroups (-1) (-1) sms.groups with
  | (_, _, none) => false
  | (allL, _, some gname) =>
    decide (allL = -1 ∨ countOf (gStateOf tstate gname) "all" < allL)

/-! ## Dictionary lemmas -/

theorem dictGet_dictSet {α : Type} (d : List (String × α)) (k k' : String) (v : α) :
    dictGet (dictSet d k v) k' = if k' = k then some v else dictGet d k' := by
  induction d with
  | nil => simp [dictGet, dictSet]
  | cons p rest ih =>
    obtain ⟨k0, w⟩ := p
    by_cases h0 : k = k0
    · subst h0
      by_cases h1 : k' = k <;> simp [dictGet, dictSet, h1]
    · by_cases h1 : k' = k0
      · subst h1
        have hne : ¬(k' = k) := fun hh => h0 hh.symm
        simp [dictGet, dictSet, h0, hne]
      · simp [dictGet, dictSet, h0, h1, ih]

theorem dictSet_dictSet_same {α : Type} (d : List (String × α)) (k : String) (v v' : α) :
    dictSet (dictSet d k v) k v' = dictSet d k v' := by
  induction d with
  | nil => simp [dictSet]
  | cons p rest ih =>
    obtain ⟨k0, w⟩ := p
    by_cases h0 : k = k0 <;> simp [dictSet, h0, ih]

/-! ## Key-set invariants of the _WHO_CAN construction -/

theorem addUser_keys (w w' : WhoCanDict) (c u : String) (h : addUser w c u = some w') :
    ∀ k, (dictGet w' k).isSome = (dictGet w k).isSome := by
  intro k
  unfold addUser at h
  cases hc : dictGet w c with
  | none => rw [hc] at h; exact absurd h (by simp)
  | some s =>
    rw [hc] at h
    have hw : w' = dictSet w c (setAdd s u) := by
      exact (Option.some.inj h).symm
    subst hw
    rw [dictGet_dictSet]
    by_cases hk : k = c
    · subst hk; simp [hc]
    · simp [hk]

theorem foldlM_keys {β : Type} (f : WhoCanDict → β → Option WhoCanDict)
    (hf : ∀ w x w', f w x = some w' → ∀ k, (dictGet w' k).isSome = (dictGet w k).isSome) :
    ∀ (l : List β) (w w'), l.foldlM f w = some w' →
      ∀ k, (dictGet w' k).isSome = (dictGet w k).isSome := by
  intro l
  induction l with
  | nil =>
    intro w w' h k
    simp only [List.foldlM_nil] at h
    cases h
    rfl
  | cons x rest ih =>
    intro w w' h k
    simp only [List.foldlM_cons] at h
    cases hx : f w x with
    | none => rw [hx] at h; exact absurd h (by simp)
    | some w1 =>
      rw [hx] at h
      simp only [Option.bind_eq_bind, Option.some_bind] at h
      rw [ih w1 w' h k, hf w x w1 hx k]

theorem addGroupGrants_keys (w w' : WhoCanDict) (g : GroupCfg)
    (h : addGroupGrants w g = some w') :
    ∀ k, (dictGet w' k).isSome = (dictGet w k).isSome := by
  refine foldlM_keys _ ?_ g.commands w w' h
  intro w1 c w2 h2
  exact foldlM_keys _ (fun wa u wb hb => addUser_keys wa wb c u hb) g.users w1 w2 h2

theorem buildWhoCan_keys (cfg : SmsConfig) (w : WhoCanDict) (h : buildWhoCan cfg = some w) :
    ∀ k, (dictGet w k).isSome = (dictGet (initWhoCan cfg) k).isSome :=
  foldlM_keys _ (fun wa g wb hb => addGroupGrants_keys wa wb g hb) cfg.groups _ w h

theorem initWhoCan_keys_aux (cs : List String) (acc : WhoCanDict) (k : String) :
    (dictGet (cs.foldl (fun a c => dictSet a c []) acc) k).isSome = true ↔
      (k ∈ cs ∨ (dictGet acc k).isSome = true) := by
  induction cs generalizing acc with
  | nil => simp
  | cons c rest ih =>
    simp only [List.foldl_cons, List.mem_cons]
    rw [ih]
    constructor
    · rintro (h | h)
      · exact Or.inl (Or.inr h)
      · rw [dictGet_dictSet] at h
        by_cases hk : k = c
        · exact Or.inl (Or.inl hk)
        · rw [if_neg hk] at h
          exact Or.inr h
    · rintro ((h | h) | h)
      · subst h
        right
        rw [dictGet_dictSet, if_pos rfl]
        rfl
      · exact Or.inl h
      · right
        rw [dictGet_dictSet]
        by_cases hk : k = c
        · rw [if_pos hk]; rfl
        · rw [if_neg hk]; exact h

theorem whoCan_hasKey (cfg : SmsConfig) (w : WhoCanDict) (k : String)
    (h : buildWhoCan cfg = some w) :
    (dictGet w k).isSome = true ↔ (k = "all" ∨ k ∈ cfg.commands) := by
  rw [buildWhoCan_keys cfg w h k]
  unfold initWhoCan
  rw [initWhoCan_keys_aux]
  constructor
  · rintro (h1 | h1)
    · exact Or.inr h1
    · left
      by_cases hk : k = "all"
      · exact hk
      · rw [dictGet_dictSet, if_neg hk] at h1
        simp [dictGet] at h1
  · rintro (h1 | h1)
    · subst h1
      right
      rw [dictGet_dictSet, if_pos rfl]
      rfl
    · exact Or.inl h1

/-! ## Claim C1 -/

/-- Claim C1: for every user and every command in the configured command
list, has_permission returns a boolean which is true exactly when the user
is not blacklisted and (the user is in WhoCan["all"], or "all" is in
WhoCan[cmd], or the user is in WhoCan[cmd]); in particular a blacklisted
user is always denied. -/
theorem c1_has_permission_iff (cfg : SmsConfig) (w : WhoCanDict) (user cmd : String)
    (hw : buildWhoCan cfg = some w) (hc : cmd ∈ cfg.commands) :
    ∃ b, hasPermission w cfg.blacklist user cmd = some b ∧
      (b = true ↔ (user ∉ cfg.blacklist ∧
        (user ∈ (dictGet w "all").getD [] ∨ "all" ∈ (dictGet w cmd).getD [] ∨
          user ∈ (dictGet w cmd).getD []))) := by
  have hall : (dictGet w "all").isSome = true :=
    (whoCan_hasKey cfg w "all" hw).2 (Or.inl rfl)
  have hcmd : (dictGet w cmd).isSome = true :=
    (whoCan_hasKey cfg w cmd hw).2 (Or.inr hc)
  obtain ⟨allSet, hs⟩ := Option.isSome_iff_exists.1 hall
  obtain ⟨cmdSet, hcs⟩ := Option.isSome_iff_exists.1 hcmd
  by_cases hb : user ∈ cfg.blacklist
  · exact ⟨false, by simp [hasPermission, hb], by simp [hb]⟩
  · by_cases ha : user ∈ allSet
    · exact ⟨true, by simp [hasPermission, hb, hs, ha], by simp [hb, hs, ha]⟩
    · refine ⟨decide ("all" ∈ cmdSet) || decide (user ∈ cmdSet), ?_, ?_⟩
      · simp [hasPermission, hb, hs, ha, hcs]
      · simp [hb, hs, hcs, ha]

/-- Witness for C1 at a concrete configuration. -/
theorem c1_has_permission_iff_witness :
    ∃ b, hasPermission [("all", []), ("play", ["alice"])] ["bob"] "alice" "play" = some b ∧
      (b = true ↔ ("alice" ∉ ["bob"] ∧
        ("alice" ∈ (dictGet [("all", []), ("play", ["alice"])] "all").getD [] ∨
          "all" ∈ (dictGet [("all", []), ("play", ["alice"])] "play").getD [] ∨
          "alice" ∈ (dictGet [("all", []), ("play", ["alice"])] "play").getD []))) := by
  exact c1_has_permission_iff ⟨["play"], [⟨"g", ["alice"], ["play"], none⟩], ["bob"]⟩
    [("all", []), ("play", ["alice"])] "alice" "play" (by decide) (by decide)

/-! ## Claim C10 -/

/-- Counterexample to C10: for the unconfigured command "zap" and the
blacklisted user "bob", has_permission does not raise a KeyError; the
conjunction short-circuits at the blacklist test and returns the verdict
False. -/
theorem c10_counterexample :
    buildWhoCan ⟨["play"], [⟨"g", ["alice"], ["play"], none⟩], ["bob"]⟩ =
      some [("all", []), ("play", ["alice"])] ∧
    ("zap" ∉ (⟨["play"], [⟨"g", ["alice"], ["play"], none⟩], ["bob"]⟩ : SmsConfig).commands) ∧
    hasPermission [("all", []), ("play", ["alice"])] ["bob"] "bob" "zap" = some false := by
  decide

/-- Claim C10 as amended: has_permission raises a KeyError exactly when
the user is not blacklisted, the user is not in WhoCan["all"], and the
command has no WhoCan entry (it is neither a configured command nor the
distinguished key "all"); in every other case the evaluation
short-circuits and a boolean verdict is returned. -/
theorem c10_keyerror_iff (cfg : SmsConfig) (w : WhoCanDict) (user cmd : String)
    (hw : buildWhoCan cfg = some w) :
    hasPermission w cfg.blacklist user cmd = none ↔
      (user ∉ cfg.blacklist ∧ user ∉ (dictGet w "all").getD [] ∧
        cmd ∉ cfg.commands ∧ cmd ≠ "all") := by
  have hall : (dictGet w "all").isSome = true :=
    (whoCan_hasKey cfg w "all" hw).2 (Or.inl rfl)
  obtain ⟨allSet, hs⟩ := Option.isSome_iff_exists.1 hall
  by_cases hb : user ∈ cfg.blacklist
  · simp [hasPermission, hb]
  · by_cases ha : user ∈ allSet
    · simp [hasPermission, hb, hs, ha]
    · cases hk : dictGet w cmd with
      | some cmdSet =>
        have hmem : cmd = "all" ∨ cmd ∈ cfg.commands :=
          (whoCan_hasKey cfg w cmd hw).1 (by simp [hk])
        simp only [hasPermission, if_neg hb, hs, ha, if_neg ha, hk]
        constructor
        · intro h
          exact absurd h (by simp)
        · rintro ⟨-, -, hnc, hna⟩
          rcases hmem with h | h
          · exact absurd h hna
          · exact absurd h hnc
      | none =>
        have hmem : ¬(cmd = "all" ∨ cmd ∈ cfg.commands) := by
          intro h
          have := (whoCan_hasKey cfg w cmd hw).2 h
          rw [hk] at this
          exact absurd this (by simp)
        push_neg at hmem
        simp [hasPermission, hb, hs, ha, hk, hmem.1, hmem.2]

/-- Witness for the amended C10 at a concrete configuration: for a user
who is neither blacklisted nor globally granted and a command without a
WhoCan entry, the check raises KeyError. -/
theorem c10_keyerror_iff_witness :
    hasPermission [("all", []), ("play", ["alice"])] ["bob"] "eve" "zap" = none ↔
      ("eve" ∉ ["bob"] ∧ "eve" ∉ (dictGet [("all", []), ("play", ["alice"])] "all").getD [] ∧
        "zap" ∉ ["play"] ∧ "zap" ≠ "all") := by
  exact c10_keyerror_iff ⟨["play"], [⟨"g", ["alice"], ["play"], none⟩], ["bob"]⟩
    [("all", []), ("play", ["alice"])] "eve" "zap" (by decide)

/-! ## Claim C2 -/

/-- Counterexample to C2: group limits all=5 and play=1, stored counts
all=0 and play=1, inside the window. The stored command count has reached
the command limit, so the claim says the call is reported
throttle-exceeded; the code returns False (not exceeded, the flag set by
the successful "all" increment), while indeed not incrementing the
command count and persisting the "all" increment. -/
theorem c2_counterexample :
    isThrottleExceeded ⟨[⟨"g", ["u"], [], none⟩], [("g", [("all", 5), ("play", 1)])], 60⟩
        20000000 ⟨some (TsRepr.withFrac 10 500000), [("g", [("play", 1)])]⟩ "play" "u" =
      some (PyVal.pyBool false,
        [⟨some (TsRepr.withFrac 10 500000), [("g", [("play", 1), ("all", 1)])]⟩]) ∧
    (PyVal.pyBool false).truthy = false := by decide

/-- Claim C2 as amended: the "all" limit of the governing group is
evaluated before the per-command limit. If the stored all-count has
reached the all-limit, True is returned immediately and nothing is
incremented or persisted by the limit phase. Otherwise the all-count is
incremented and the per-command limit is evaluated: if the stored command
count has reached the command limit, the command count is not incremented
and the already-applied "all" increment is still persisted, but the call
is reported as False (allowed), not throttle-exceeded; if the command
count has not reached the limit it is incremented and the call is
allowed. Only when no "all" limit is defined does a reached per-command
limit surface as the truthy sentinel -1. -/
theorem c2_all_before_cmd (allL cmdL : Int) (gname cmd : String) (t : ThrottleState)
    (ws : List ThrottleState) :
    (allL ≠ -1 → allL ≤ countOf (gStateOf t gname) "all" →
      limitPhase allL cmdL gname cmd t ws = (PyVal.pyBool true, ws)) ∧
    (allL ≠ -1 → countOf (gStateOf t gname) "all" < allL → cmdL ≠ -1 →
        cmdL ≤ countOf (gStateOf t gname) cmd →
      limitPhase allL cmdL gname cmd t ws =
        (PyVal.pyBool false, ws ++ [⟨t.start, dictSet t.counters gname
          (dictSet (gStateOf t gname) "all" (countOf (gStateOf t gname) "all" + 1))⟩]) ∧
      (PyVal.pyBool false).truthy = false) ∧
    (allL ≠ -1 → countOf (gStateOf t gname) "all" < allL → cmdL ≠ -1 →
        countOf (gStateOf t gname) cmd < cmdL →
      limitPhase allL cmdL gname cmd t ws =
        (PyVal.pyBool false, ws ++ [⟨t.start, dictSet t.counters gname
          (dictSet (dictSet (gStateOf t gname) "all" (countOf (gStateOf t gname) "all" + 1))
            cmd (countOf (gStateOf t gname) cmd + 1))⟩])) ∧
    (allL = -1 → cmdL ≠ -1 → cmdL ≤ countOf (gStateOf t gname) cmd →
      limitPhase allL cmdL gname cmd t ws = (PyVal.pyInt (-1), ws ++ [t]) ∧
      (PyVal.pyInt (-1)).truthy = true) := by
  refine ⟨?_, ?_, ?_, ?_⟩
  · intro h1 h2
    simp only [limitPhase, if_pos h1, if_neg (by omega : ¬countOf (gStateOf t gname) "all" < allL)]
  · intro h1 h2 h3 h4
    simp only [limitPhase, if_pos h1, if_pos h2, cmdPhase,
      if_neg (by omega : ¬(cmdL ≠ -1 ∧ countOf (gStateOf t gname) cmd < cmdL))]
    simp [PyVal.truthy]
  · intro h1 h2 h3 h4
    simp only [limitPhase, if_pos h1, if_pos h2, cmdPhase, if_pos (And.intro h3 h4)]
    rw [dictSet_dictSet_same]
  · intro h1 h2 h3
    simp only [limitPhase, if_neg (by omega : ¬allL ≠ -1), cmdPhase,
      if_neg (by omega : ¬(cmdL ≠ -1 ∧ countOf (gStateOf t gname) cmd < cmdL))]
    simp [PyVal.truthy]

/-- Witness for the amended C2: the all-not-reached, command-limit-reached
case at concrete values. -/
theorem c2_all_before_cmd_witness :
    limitPhase 5 1 "g" "play" ⟨some (TsRepr.withFrac 10 500000), [("g", [("play", 1)])]⟩ [] =
      (PyVal.pyBool false,
        [⟨some (TsRepr.withFrac 10 500000), [("g", [("play", 1), ("all", 1)])]⟩]) ∧
    (PyVal.pyBool false).truthy = false := by
  exact (c2_all_before_cmd 5 1 "g" "play"
    ⟨some (TsRepr.withFrac 10 500000), [("g", [("play", 1)])]⟩ []).2.1
    (by decide) (by decide) (by decide) (by decide)

/-! ## Claim C3 -/

/-- Claim C3: the throttle window resets, producing a fresh window whose
start is str(now) and whose counters are empty, persisted before any
limit is evaluated, exactly when the current time equals the stored
(parsed) start timestamp or is strictly past stop = start plus
throttle_time_limit_seconds; a missing start timestamp defaults to the
current time, so the window resets. -/
theorem c3_window_reset (sms : SmsRuntime) (now : DateTime) (stored : ThrottleState)
    (cmd user : String) (st : DateTime) (h : startOf now stored = some st) :
    ((now = st ∨ st + sms.timeLimit * 1000000 < now) →
      isThrottleExceeded sms now stored cmd user =
        some (throttleTail sms cmd user (freshWindow now) [freshWindow now]) ∧
      (freshWindow now).start = some (pyStrDT now) ∧ (freshWindow now).counters = []) ∧
    (¬(now = st ∨ st + sms.timeLimit * 1000000 < now) →
      isThrottleExceeded sms now stored cmd user =
        some (throttleTail sms cmd user stored [])) ∧
    (stored.start = none → now = st) := by
  refine ⟨fun hc => ⟨?_, rfl, rfl⟩, fun hc => ?_, fun hn => ?_⟩
  · simp only [isThrottleExceeded, h]
    rw [if_pos hc]
  · simp only [isThrottleExceeded, h]
    rw [if_neg hc]
  · unfold startOf at h
    rw [hn] at h
    exact Option.some.inj h

/-- Witness for C3 at a concrete expired window: start 10.5s, limit 60s,
now 80s, so stop < now and the reset branch is taken. -/
theorem c3_window_reset_witness :
    ((80000000 = 10500000 ∨ 10500000 + (⟨[], [], 60⟩ : SmsRuntime).timeLimit * 1000000 < 80000000) →
      isThrottleExceeded ⟨[], [], 60⟩ 80000000
          ⟨some (TsRepr.withFrac 10 500000), [("g", [("play", 3)])]⟩ "play" "u" =
        some (throttleTail ⟨[], [], 60⟩ "play" "u" (freshWindow 80000000) [freshWindow 80000000]) ∧
      (freshWindow 80000000).start = some (pyStrDT 80000000) ∧
      (freshWindow 80000000).counters = []) ∧
    (¬(80000000 = 10500000 ∨ 10500000 + (⟨[], [], 60⟩ : SmsRuntime).timeLimit * 1000000 < 80000000) →
      isThrottleExceeded ⟨[], [], 60⟩ 80000000
          ⟨some (TsRepr.withFrac 10 500000), [("g", [("play", 3)])]⟩ "play" "u" =
        some (throttleTail ⟨[], [], 60⟩ "play" "u"
          ⟨some (TsRepr.withFrac 10 500000), [("g", [("play", 3)])]⟩ [])) ∧
    ((⟨some (TsRepr.withFrac 10 500000), [("g", [("play", 3)])]⟩ : ThrottleState).start = none →
      80000000 = 10500000) := by
  exact c3_window_reset ⟨[], [], 60⟩ 80000000
    ⟨some (TsRepr.withFrac 10 500000), [("g", [("play", 3)])]⟩ "play" "u" 10500000 (by decide)

/-! ## Claim C4 -/

/-- Counterexample to C4: the group "a" has the user as member and its
throttle definition contains a limit for "all" (value -1, as produced by
the token all:-1), so under the claim it is the governing bucket; the
code treats the -1 limit as "not defined", selects no group at all, and
reports not-throttled. -/
theorem c4_counterexample :
    specFirstMatch "u" "play" [("a", [("all", -1)])] [⟨"a", ["u"], [], some ["all:-1"]⟩] =
      some "a" ∧
    buildThrottledGroups [] [⟨"a", ["u"], [], some ["all:-1"]⟩] = some [("a", [("all", -1)])] ∧
    findGroup "u" "play" [("a", [("all", -1)])] (-1) (-1) [⟨"a", ["u"], [], some ["all:-1"]⟩] =
      (-1, -1, none) ∧
    throttleTail ⟨[⟨"a", ["u"], [], some ["all:-1"]⟩], [("a", [("all", -1)])], 60⟩ "play" "u"
      ⟨some (TsRepr.withFrac 10 500000), []⟩ [] = (PyVal.pyBool false, []) := by decide

/-- Claim C4 as amended: the throttle bucket is the first group, in
declared order, of which the user is a member and whose throttle
definition contains a limit different from -1 for "all" or for the
command (a configured limit equal to -1 is indistinguishable from an absent
one because -1 is the sentinel); later groups are not consulted, the
selected limits default to -1 when the corresponding key is absent, and
when no group matches the check reports not-throttled without touching
any counter. -/
theorem c4_group_precedence (user cmd : String) :
    (∀ (tgs : List (String × List (String × Int))) (gs : List GroupCfg),
      findGroup user cmd tgs (-1) (-1) gs =
        (match amendedFirstMatch user cmd tgs gs with
         | none => (-1, -1, none)
         | some (g, a, c) => (a, c, some g))) ∧
    (∀ (sms : SmsRuntime) (t : ThrottleState) (ws : List ThrottleState),
      throttleTail sms cmd user t ws =
        (match amendedFirstMatch user cmd sms.throttledGroups sms.groups with
         | none => (PyVal.pyBool false, ws)
         | some (g, a, c) => limitPhase a c g cmd t ws)) := by
  have main : ∀ (tgs : List (String × List (String × Int))) (gs : List GroupCfg),
      findGroup user cmd tgs (-1) (-1) gs =
        (match amendedFirstMatch user cmd tgs gs with
         | none => (-1, -1, none)
         | some (g, a, c) => (a, c, some g)) := by
    intro tgs gs
    induction gs with
    | nil => simp [findGroup, amendedFirstMatch]
    | cons g rest ih =>
      by_cases hu : user ∈ g.users
      · cases hd : dictGet tgs g.name with
        | some d =>
          by_cases hcond : (dictGet d "all").getD (-1) ≠ -1 ∨ (dictGet d cmd).getD (-1) ≠ -1
          · simp [findGroup, amendedFirstMatch, hu, hd, hcond]
          · push_neg at hcond
            simp only [findGroup, amendedFirstMatch, if_pos hu, hd]
            rw [if_neg (by push_neg; exact hcond), if_neg (by push_neg; exact hcond),
              hcond.1, hcond.2]
            exact ih
        | none => simpa [findGroup, amendedFirstMatch, hu, hd] using ih
      · simpa [findGroup, amendedFirstMatch, hu] using ih
  refine ⟨main, ?_⟩
  intro sms t ws
  unfold throttleTail
  rw [main sms.throttledGroups sms.groups]
  cases hm : amendedFirstMatch user cmd sms.throttledGroups sms.groups with
  | none => rfl
  | some gac => obtain ⟨g, a, c⟩ := gac; rfl

/-! ## Claim C5 -/

/-- Counterexample to C5: a check that completes (verdict False) with an
empty write list — with no matching throttled group and no window reset,
no return path writes the window back. -/
theorem c5_counterexample :
    isThrottleExceeded ⟨[], [], 60⟩ 20000000 ⟨some (TsRepr.withFrac 10 500000), []⟩
      "play" "u" = some (PyVal.pyBool false, []) := by decide

/-- Claim C5 as amended: the limit-evaluation phase performs at most one
write, and it writes the (possibly unchanged) window back exactly when a
throttled group was selected and the "all" early return was not taken;
the no-matching-group path and the "all"-limit-reached path return
without writing (a window reset earlier in the same call has already
persisted the fresh window separately). -/
theorem c5_persist_on_paths (sms : SmsRuntime) (cmd user : String) (t : ThrottleState)
    (ws : List ThrottleState) :
    ∃ tail, (throttleTail sms cmd user t ws).2 = ws ++ tail ∧ tail.length ≤ 1 ∧
      (tail = [] ↔ tailPersists sms cmd user t = false) := by
  cases hf : findGroup user cmd sms.throttledGroups (-1) (-1) sms.groups with
  | mk allL rest0 =>
    obtain ⟨cmdL, og⟩ := rest0
    cases og with
    | none =>
      refine ⟨[], ?_, by simp, ?_⟩
      · simp [throttleTail, hf]
      · simp [tailPersists, hf]
    | some gname =>
      simp only [throttleTail, tailPersists, hf, limitPhase, cmdPhase]
      by_cases h1 : allL ≠ -1
      · rw [if_pos h1]
        by_cases h2 : countOf (gStateOf t gname) "all" < allL
        · rw [if_pos h2]
          by_cases h3 : cmdL ≠ -1 ∧ countOf (gStateOf t gname) cmd < cmdL
          · rw [if_pos h3]
            exact ⟨[_], rfl, by simp, by simp [h1, h2]⟩
          · rw [if_neg h3]
            exact ⟨[_], rfl, by simp, by simp [h1, h2]⟩
        · rw [if_neg h2]
          refine ⟨[], by simp, by simp, ?_⟩
          have hno : ¬(allL = -1 ∨ countOf (gStateOf t gname) "all" < allL) := by
            push_neg
            exact ⟨h1, by omega⟩
          simp [hno]
      · rw [if_neg h1]
        by_cases h3 : cmdL ≠ -1 ∧ countOf (gStateOf t gname) cmd < cmdL
        · rw [if_pos h3]
          exact ⟨[_], rfl, by simp, by simp [h1]⟩
        · rw [if_neg h3]
          have ha : allL = -1 := by omega
          exact ⟨[_], rfl, by simp, by simp [ha]⟩

/-! ## Claim C6 -/

/-- Counterexample to C6: an unparsable persisted blob is not treated as
an empty default window; ast.literal_eval raises and the throttle check
fails instead of completing with a verdict. -/
theorem c6_counterexample :
    isThrottleExceededBlob ⟨[], [], 60⟩ 80000000 (PersistedBlob.stored none) "play" "u" =
      none := by decide

/-- Claim C6 as amended: an absent persisted throttle blob is treated as
the empty default window — get_state returns the default empty
dictionary, the missing start timestamp defaults to now, the window
resets and the check completes with a verdict; an unparsable blob,
however, makes ast.literal_eval raise and the check fails. -/
theorem c6_absent_blob_defaults (sms : SmsRuntime) (now : DateTime) (cmd user : String) :
    getStateThrottle PersistedBlob.absent = some ⟨none, []⟩ ∧
    isThrottleExceededBlob sms now PersistedBlob.absent cmd user =
      some (throttleTail sms cmd user (freshWindow now) [freshWindow now]) := by
  refine ⟨rfl, ?_⟩
  simp [isThrottleExceededBlob, getStateThrottle, isThrottleExceeded, startOf]

/-! ## Claim C7 -/

/-- Counterexample to C7: the throttle token vol:x splits into two parts
but its limit part is not an integer; int() raises ValueError, which the
construction does not catch, so the whole permission-table construction
aborts instead of skipping the token. -/
theorem c7_counterexample :
    pyIntParse "x" = none ∧
    parseThrottleDefs [] ["play:2", "vol:x"] = none ∧
    buildThrottledGroups [] [⟨"g", [], [], some ["play:2", "vol:x"]⟩] = none := by decide

/-- Claim C7 as amended: a throttle token that does not split on the
colon into exactly two parts is skipped (with a warning) and parsing of
the remaining tokens continues; a token whose limit part is not an
integer, however, raises ValueError, and the error propagates so that the
permission-table construction aborts. -/
theorem c7_malformed_tokens (acc : List (String × Int)) (tok : String) (rest : List String) :
    ((pySplitColon tok).length ≠ 2 →
      parseThrottleDefs acc (tok :: rest) = parseThrottleDefs acc rest) ∧
    (∀ c l, pySplitColon tok = [c, l] → pyIntParse l = none →
      parseThrottleDefs acc (tok :: rest) = none) ∧
    (∀ (tgAcc : List (String × List (String × Int))) (name : String)
        (users cmds : List String) (grest : List GroupCfg),
      parseThrottleDefs [] (tok :: rest) = none →
      buildThrottledGroups tgAcc (⟨name, users, cmds, some (tok :: rest)⟩ :: grest) = none) := by
  refine ⟨?_, ?_, ?_⟩
  · intro hlen
    match hs : pySplitColon tok with
    | [] => simp [parseThrottleDefs, hs]
    | [a] => simp [parseThrottleDefs, hs]
    | [a, b] => rw [hs] at hlen; simp at hlen
    | a :: b :: c :: t => simp [parseThrottleDefs, hs]
  · intro c l hs hl
    simp [parseThrottleDefs, hs, hl]
  · intro tgAcc name users cmds grest hp
    simp [buildThrottledGroups, hp]

/-- Witness for the amended C7: an arity-malformed token is skipped while
parsing continues, and a non-integer limit aborts the group construction. -/
theorem c7_malformed_tokens_witness :
    parseThrottleDefs [] ["a:b:c", "play:2"] = parseThrottleDefs [] ["play:2"] ∧
    buildThrottledGroups [] [⟨"g", [], [], some ["vol:x"]⟩] = none := by
  constructor
  · exact (c7_malformed_tokens [] "a:b:c" ["play:2"]).1 (by decide)
  · exact (c7_malformed_tokens [] "vol:x" []).2.2 [] "g" [] [] [] (by decide)

/-! ## Claim C8 -/

/-- Counterexample to C8: it is not the case that on every exit path of
load_state and update_state the file lock is explicitly released before
the handle closes — on the error paths the unlock call is skipped. -/
theorem c8_counterexample :
    ¬(∀ b : Bool, unlockBeforeClose (loadStateTrace b) = true ∧
        unlockBeforeClose (updateStateTrace b) = true) := by decide

/-- Claim C8 as amended: on the non-raising paths of load_state and
update_state the lock is explicitly released before the file handle
closes; on the paths where STATE.readfp or STATE.write raises, no
explicit unlock occurs at all — the with-block still closes the handle
(which is what ends the advisory lock), so the release does not happen
before the close as an explicit step. -/
theorem c8_lock_release :
    unlockBeforeClose (loadStateTrace false) = true ∧
    unlockBeforeClose (updateStateTrace false) = true ∧
    FileEv.unlock ∉ loadStateTrace true ∧
    FileEv.unlock ∉ updateStateTrace true ∧
    FileEv.closeFp ∈ loadStateTrace true ∧
    FileEv.closeFp ∈ updateStateTrace true := by decide

/-! ## Claim C9 -/

/-- Claim C9 (code bug): a window whose start timestamp has a zero
microsecond component is serialized by str(datetime) without the
fractional part, and the reload path parses with strptime's mandatory .%f
directive, which then raises ValueError — the round trip crashes instead
of yielding an identical window. At 5.5 seconds (nonzero microseconds)
the round trip does preserve the timestamp exactly; at 5.0 seconds the
serialized form has no fraction, strptime fails, and a throttle check
reading such a stored window raises instead of returning. -/
theorem c9_roundtrip_zero_usec :
    strptimeFrac (pyStrDT 5500000) = some 5500000 ∧
    pyStrDT 5000000 = TsRepr.noFrac 5 ∧
    strptimeFrac (pyStrDT 5000000) = none ∧
    isThrottleExceeded ⟨[⟨"g", ["u"], [], none⟩], [("g", [("all", 2)])], 60⟩ 6000000
      ⟨some (pyStrDT 5000000), []⟩ "play" "u" = none := by decide

